import Mathlib

/-!
Verification development for the auction-scraper repository (joshsisto/bidder).

The Python modules under src/ are shallowly embedded below: pure string and
arithmetic manipulation is translated directly; machine floats are modelled by
the rationals (every arithmetic operation performed by the embedded code stays
on integers and halves, where binary floating point is exact); calls that
perform network or OS effects (HTTP fetches, OCR, the vision API, the LLM API)
are modelled as explicit oracle parameters whose outcomes the surrounding code
consumes, with `Except Unit` standing for a Python call that may raise.
Regular-expression use in the source is embedded by an executable backtracking
matcher (`RPat`) whose alternative order reproduces the leftmost,
greedy-with-backtracking preference order of Python's `re` module.
-/

set_option maxRecDepth 1000000

namespace Bidder

/-! ## Python string primitives -/

/-- Python whitespace class for `str.strip`, `str.split` and the regex class
backslash-s, restricted to the ASCII range that the embedded data uses. -/
def isPyWs (c : Char) : Bool :=
  c = ' ' || c = '\t' || c = '\n' || c = '\x0d' || c = '\x0b' || c = '\x0c'

/-- ASCII word character, the regex class backslash-w. -/
def isWordChar (c : Char) : Bool := c.isAlphanum || c = '_'

/-- Python `str.lower` (ASCII). -/
def pyLower (s : String) : String := ⟨s.data.map Char.toLower⟩

/-- Python `str.upper` (ASCII). -/
def pyUpper (s : String) : String := ⟨s.data.map Char.toUpper⟩

/-- Python `str.strip`: drop leading and trailing whitespace. -/
def pyStrip (s : String) : String :=
  ⟨((s.data.dropWhile isPyWs).reverse.dropWhile isPyWs).reverse⟩

/-- Helper for `pySplit`: split a character list on whitespace runs. -/
def splitWsAux : List Char → List Char → List String
  | [], acc => if acc = [] then [] else [⟨acc.reverse⟩]
  | c :: cs, acc =>
    if isPyWs c then
      (if acc = [] then [] else [(⟨acc.reverse⟩ : String)]) ++ splitWsAux cs []
    else splitWsAux cs (c :: acc)

/-- Python `str.split()` with no argument: split on whitespace runs,
discarding empty pieces. -/
def pySplit (s : String) : List String := splitWsAux s.data []

/-- Python `" ".join(parts)`. -/
def joinSpace (parts : List String) : String :=
  match parts with
  | [] => ""
  | p :: ps => ps.foldl (fun acc q => acc ++ " " ++ q) p

/-- Decide whether `needle` occurs as a contiguous substring of `hay`
(Python `needle in hay`). -/
def containsSub (needle hay : String) : Bool :=
  let rec go : List Char → Bool
    | [] => needle.data.isPrefixOf []
    | c :: cs => needle.data.isPrefixOf (c :: cs) || go cs
  go hay.data

/-- Replace each maximal whitespace run by a single space: the source's
`re.sub` of a whitespace-plus pattern with a one-space replacement. -/
def collapseWs (s : String) : String :=
  let rec go : List Char → Bool → List Char
    | [], _ => []
    | c :: cs, inRun =>
      if isPyWs c then (if inRun then go cs true else ' ' :: go cs true)
      else c :: go cs false
  ⟨go s.data false⟩

/-- Map every character not accepted by `allowed` to a space: the source's
`re.sub` of a negated character class with a one-space replacement. -/
def filterChars (allowed : Char → Bool) (s : String) : String :=
  ⟨s.data.map (fun c => if allowed c then c else ' ')⟩

/-- Python `str.title` (ASCII): a letter that follows a non-letter is
uppercased, a letter that follows a letter is lowercased. -/
def pyTitle (s : String) : String :=
  let rec go : Bool → List Char → List Char
    | _, [] => []
    | prevAlpha, c :: cs =>
      (if c.isAlpha then (if prevAlpha then c.toLower else c.toUpper) else c)
        :: go c.isAlpha cs
  ⟨go false s.data⟩

/-- First `n` characters of a string (Python slice `s[:n]`). -/
def strTake (n : Nat) (s : String) : String := ⟨s.data.take n⟩

/-- Truthiness of an optional string field of a Python dict: the key must be
present and the value non-empty. -/
def strTruthy (o : Option String) : Bool :=
  match o with
  | some s => s ≠ ""
  | none => false

/-- Keep first occurrences only. The source materialises `list(set(xs))`,
whose ordering is interpreter-dependent; the embedding fixes the
first-occurrence order, which no property proved below depends on. -/
def pySet (l : List String) : List String :=
  l.foldl (fun acc s => if s ∈ acc then acc else acc ++ [s]) []

/-- Digits of a character list read as a natural number. -/
def digitsToNat (l : List Char) : Nat :=
  l.foldl (fun n c => n * 10 + (c.toNat - '0'.toNat)) 0

/-- Python `float(s)` for the plain decimal forms that currency strings take:
optional sign, digits with at most one point, at least one digit. Exponent,
infinity and NaN spellings never occur in the scraped data and are rejected. -/
def pyFloat (s : String) : Option ℚ :=
  let t := (s.data.dropWhile isPyWs).reverse.dropWhile isPyWs |>.reverse
  let (neg, u) : Bool × List Char :=
    match t with
    | '-' :: r => (true, r)
    | '+' :: r => (false, r)
    | r => (false, r)
  let intPart := u.takeWhile Char.isDigit
  let rest := u.dropWhile Char.isDigit
  let build : List Char → List Char → Option ℚ := fun ip fr =>
    let mag : ℚ := mkRat (digitsToNat (ip ++ fr)) (10 ^ fr.length)
    some (if neg then -mag else mag)
  match rest with
  | [] => if intPart = [] then none else build intPart []
  | '.' :: frac =>
    if frac.all Char.isDigit ∧ (intPart ≠ [] ∨ frac ≠ []) then build intPart frac
    else none
  | _ => none

/-- Remove every (non-overlapping, leftmost-shortest) occurrence of the text
`Lot #` followed by a nearest colon on the same line: the source's
`re.sub` of the pattern `Lot #`, lazy dot-star, colon. The dot of the pattern
does not cross a newline. -/
def removeLotTags (s : String) : String :=
  let matchAt : List Char → Option (List Char) := fun l =>
    if ("Lot #".data).isPrefixOf l then
      let rest := l.drop 5
      let upto := rest.takeWhile (fun c => c ≠ ':' ∧ c ≠ '\n')
      match rest.drop upto.length with
      | ':' :: after => some after
      | _ => none
    else none
  let rec go : Nat → List Char → List Char
    | 0, l => l
    | _ + 1, [] => []
    | fuel + 1, c :: cs =>
      match matchAt (c :: cs) with
      | some after => go fuel after
      | none => c :: go fuel cs
  ⟨go s.data.length s.data⟩

/-! ## Backtracking regex matcher

The source applies a fixed set of anchored or searched regular expressions.
`RPat` covers exactly the constructs those patterns use: literals, bounded
and unbounded character-class repetition, alternation, word boundaries
and a single capture group. `matchR` enumerates the possible matches in the
preference order of Python's backtracking engine (greedy repetition first,
left alternative first), so the head of the enumeration is the match Python
reports. Case-insensitive patterns are applied to pre-lowercased text. -/

inductive RPat where
  | eps : RPat
  | lit : String → RPat
  | cls : (Char → Bool) → Nat → Nat → RPat
  | clsPlus : (Char → Bool) → RPat
  | alt : RPat → RPat → RPat
  | seq : RPat → RPat → RPat
  | bnd : RPat
  | grp : RPat → RPat

/-- Word-boundary test between an optional previous character and the next
character of the input. -/
def atBoundary (prev : Option Char) (next : Option Char) : Bool :=
  (match prev with | some c => isWordChar c | none => false) ≠
  (match next with | some c => isWordChar c | none => false)

/-- Previous-character context after consuming `consumed`. -/
def prevAfter (prev : Option Char) (consumed : List Char) : Option Char :=
  match consumed.getLast? with
  | some c => some c
  | none => prev

/-- Repetition counts `min hi run` down to `lo` (greedy order). -/
def repCounts (lo hi run : Nat) : List Nat :=
  (List.range (min hi run + 1)).reverse.filter (fun k => lo ≤ k)

/-- All ways a pattern can match a prefix of the input, as
(capture, new previous-character context, remaining input) triples, in the
Python backtracking preference order. -/
def matchR : RPat → Option Char → List Char → List (Option (List Char) × Option Char × List Char)
  | .eps, prev, l => [(none, prev, l)]
  | .lit s, prev, l =>
    if s.data.isPrefixOf l then [(none, prevAfter prev s.data, l.drop s.length)] else []
  | .cls p lo hi, prev, l =>
    let run := (l.takeWhile p).length
    (repCounts lo hi run).map (fun k => (none, prevAfter prev (l.take k), l.drop k))
  | .clsPlus p, prev, l =>
    let run := (l.takeWhile p).length
    (repCounts 1 run run).map (fun k => (none, prevAfter prev (l.take k), l.drop k))
  | .alt a b, prev, l => matchR a prev l ++ matchR b prev l
  | .seq a b, prev, l =>
    (matchR a prev l).flatMap (fun r =>
      (matchR b r.2.1 r.2.2).map (fun r2 =>
        ((match r.1 with | some c => some c | none => r2.1), r2.2.1, r2.2.2)))
  | .bnd, prev, l => if atBoundary prev l.head? then [(none, prev, l)] else []
  | .grp r, prev, l =>
    (matchR r prev l).map (fun t => (some (l.take (l.length - t.2.2.length)), t.2.1, t.2.2))

/-- A fully anchored match (the source's `re.match` on patterns that carry
both anchors): some enumeration entry consumes the whole input. -/
def rmatchFull (r : RPat) (s : String) : Bool :=
  (matchR r none s.data).any (fun t => t.2.2 = [])

/-- Scan helper for `re.search`: try each start position left to right. -/
def rsearchAux (r : RPat) (prev : Option Char) : List Char → Bool
  | [] => ¬ (matchR r prev []).isEmpty
  | c :: cs => ¬ (matchR r prev (c :: cs)).isEmpty || rsearchAux r (some c) cs

/-- Python `re.search` as a Boolean. -/
def rsearch (r : RPat) (s : String) : Bool := rsearchAux r none s.data

/-- Scan helper for the span of the leftmost match: returns the count of
characters before the match and the match length. -/
def rspanAux (r : RPat) (prev : Option Char) (pos : Nat) : List Char → Option (Nat × Nat)
  | [] =>
    match (matchR r prev []).head? with
    | some _ => some (pos, 0)
    | none => none
  | c :: cs =>
    match (matchR r prev (c :: cs)).head? with
    | some t => some (pos, (c :: cs).length - t.2.2.length)
    | none => rspanAux r (some c) (pos + 1) cs

/-- Span (start, length) of the leftmost preferred match of `r` in `s`. -/
def rspan (r : RPat) (s : String) : Option (Nat × Nat) := rspanAux r none 0 s.data

/-- Fuelled helper for `re.findall`: leftmost non-overlapping matches,
returning the capture when the pattern has a group and the whole match
otherwise; a zero-width match advances by one character. -/
def rfindallAux (r : RPat) : Nat → Option Char → List Char → List String
  | 0, _, _ => []
  | _ + 1, prev, [] =>
    match (matchR r prev []).head? with
    | some t => [⟨t.1.getD []⟩]
    | none => []
  | fuel + 1, prev, c :: cs =>
    match (matchR r prev (c :: cs)).head? with
    | some t =>
      let m := (c :: cs).length - t.2.2.length
      let whole := (c :: cs).take m
      let piece : String := ⟨t.1.getD whole⟩
      if m = 0 then piece :: rfindallAux r fuel (some c) cs
      else piece :: rfindallAux r fuel (prevAfter prev whole) t.2.2
    | none => rfindallAux r fuel (some c) cs

/-- Python `re.findall`. -/
def rfindall (r : RPat) (s : String) : List String :=
  rfindallAux r (s.data.length + 1) none s.data

/-! ## Data model

The pipeline passes one mutable dict per auction item; optional fields model
dict keys that may be absent. -/

/-- The `llm_product_info` mapping stored by `get_best_market_price`
(src/scraper/price_finder.py lines 448-453). -/
structure LLMProductInfo where
  product_type : String
  brand : String
  model : String
  attributes : String
deriving DecidableEq

/-- The `product_info` fields read by the pricing stage
(src/scraper/price_finder.py lines 499-501). -/
structure ProductInfo where
  category : String := ""
  confidence : ℚ := 0
deriving DecidableEq

/-- The per-item `object_detection` container
(src/scraper/object_detector.py lines 470-476). -/
structure DetectionResults where
  detected_objects : List String := []
  detected_brands : List String := []
  model_numbers : List String := []
  colors : List String := []
  additional_text : List String := []
deriving DecidableEq

/-- An auction item dict. Fields that a stage may or may not have written are
`Option`s with `none` for an absent key. -/
structure Item where
  lotNumber : String := ""
  description : String := ""
  currentBid : String := ""
  timeRemaining : String := ""
  itemUrl : String := ""
  images : List String := []
  skip_for_processing : Bool := false
  llm_product_info : Option LLMProductInfo := none
  current_bid_float : Option ℚ := none
  market_price : Option ℚ := none
  potential_profit : Option ℚ := none
  enhanced_description : Option String := none
  ocr_text : Option String := none
  ocr_brands : Option (List String) := none
  ocr_model_numbers : Option (List String) := none
  rich_search_query : Option String := none
  final_search_query : Option String := none
  used_search_query : Option String := none
  product_info : Option ProductInfo := none
  object_detection : Option DetectionResults := none
deriving DecidableEq

/-! ## Report generation (src/analyzer/report_generator.py)

`generate_excel_report` walks the item list, skipping some items, computes the
pricing columns of each remaining row, and writes the skipped count to the
metadata sheet. The spreadsheet-styling code has no bearing on the row data
and is outside the embedding. -/

/-- One data row of the Opportunities sheet, restricted to the computed
pricing columns and the identifying text columns (lines 75-92). -/
structure ReportRow where
  lotNumber : String
  description : String
  current_bid : ℚ
  market_price : ℚ
  potential_profit : ℚ
  profit_margin : ℚ
deriving DecidableEq

/-- The skip test of the report loop (lines 35-43): taken only when the LLM
integration is on AND the item is NOT already flagged, and then only when a
stored `llm_product_info` has an unknown or empty product type or brand. -/
def reportSkipCond (openrouterEnabled : Bool) (it : Item) : Bool :=
  openrouterEnabled && !it.skip_for_processing &&
    (match it.llm_product_info with
     | some info =>
       (info.product_type = "Unknown" || info.product_type = "") ||
       (info.brand = "Unknown" || info.brand = "")
     | none => false)

/-- The pricing columns of one row (lines 45-53): profit is
`market_price - current_bid` when the market price is positive and 0
otherwise; the margin is `profit / current_bid * 100` when both market price
and bid are positive and 0 otherwise. -/
def reportRowOf (it : Item) : ReportRow :=
  let current_bid := it.current_bid_float.getD 0
  let market_price := it.market_price.getD 0
  let potential_profit := if 0 < market_price then market_price - current_bid else 0
  let profit_margin :=
    if 0 < market_price ∧ 0 < current_bid then potential_profit / current_bid * 100 else 0
  { lotNumber := it.lotNumber, description := it.description,
    current_bid := current_bid, market_price := market_price,
    potential_profit := potential_profit, profit_margin := profit_margin }

/-- The report loop (lines 31-96): the produced data rows in input order and
the `skipped_items` counter that the metadata sheet reports (line 121). -/
def generateReportData (openrouterEnabled : Bool) : List Item → List ReportRow × Nat
  | [] => ([], 0)
  | it :: its =>
    let rest := generateReportData openrouterEnabled its
    if reportSkipCond openrouterEnabled it then (rest.1, rest.2 + 1)
    else (reportRowOf it :: rest.1, rest.2)

/-! ## Price aggregation (src/scraper/price_finder.py)

`search_google_for_price` (lines 237-248), `search_amazon_for_price`
(lines 340-351) and `_fallback_google_search` (lines 119-129) reduce their
extracted price list with the same block: sort, slice off the first and last
element when more than three prices were found, sort again and take the
element at index `len // 2`. -/

/-- Python `sorted` on floats (ascending, embedded on the rationals). -/
def pySorted (l : List ℚ) : List ℚ := l.insertionSort (fun a b => a ≤ b)

/-- The element `prices[len(prices) // 2]` the source calls the median. -/
def midElement (l : List ℚ) : ℚ := l.getD (l.length / 2) 0

/-- The shared price-list reduction of the three search functions: `none`
when no prices were extracted, otherwise the sort / conditional outlier slice
/ middle-element block. -/
def medianPrice (prices : List ℚ) : Option ℚ :=
  if prices = [] then none
  else
    let trimmed :=
      if prices.length > 3 then ((pySorted prices).drop 1).dropLast else prices
    some (midElement (pySorted trimmed))

/-! ## Keyword price estimator (src/scraper/price_finder.py lines 362-431) -/

/-- Keywords adding 50.0 each (line 369). -/
def highValueKeywords : List String :=
  ["premium", "professional", "high-end", "luxury", "gold", "platinum", "diamond"]

/-- Keywords adding 15.0 each (line 370). -/
def midValueKeywords : List String :=
  ["quality", "leather", "wireless", "bluetooth", "digital", "stainless"]

/-- Keywords subtracting 5.0 each (line 371). -/
def lowValueKeywords : List String :=
  ["basic", "simple", "mini", "small", "plastic"]

/-- The `category_base_prices` table of lines 374-384. The table is defined
by `estimate_price_from_description` but never read afterwards. -/
def categoryBasePrices (category : String) : ℚ :=
  if category = "electronics" then 100
  else if category = "furniture" then 120
  else if category = "appliances" then 150
  else if category = "tools" then 80
  else if category = "jewelry" then 200
  else if category = "art" then 150
  else if category = "clothing" then 40
  else if category = "sports" then 75
  else 50

/-- Python `max(a, b)` (first argument on ties). Written out so that it
evaluates by kernel reduction. -/
def pyMax (a b : ℚ) : ℚ := if b ≤ a then a else b

/-- Search for the quantity pattern `set of` followed by a digit run
(line 410, first disjunct). -/
def hasSetOfNum : List Char → Bool
  | [] => false
  | c :: cs =>
    (("set of ".data).isPrefixOf (c :: cs) &&
      (match ((c :: cs).drop 7).head? with
       | some d => d.isDigit
       | none => false)) ||
    hasSetOfNum cs

/-- Search for a digit run followed by the literal text ` piece`
(line 410, second disjunct). -/
def hasNumPiece : List Char → Bool
  | [] => false
  | c :: cs =>
    (c.isDigit && (" piece".data).isPrefixOf ((c :: cs).dropWhile Char.isDigit)) ||
    hasNumPiece cs

/-- Leftmost digit run directly followed by a double quote or by `in`
(covering `inch`), as the size regex of line 415 finds it; returns the run
value. -/
def findInchSize : List Char → Option Nat
  | [] => none
  | c :: cs =>
    if c.isDigit then
      let rest := (c :: cs).dropWhile Char.isDigit
      if rest.head? = some '"' || ("in".data).isPrefixOf rest then
        some (digitsToNat ((c :: cs).takeWhile Char.isDigit))
      else findInchSize cs
    else findInchSize cs

/-- `estimate_price_from_description`: start at the fixed base 50.0, walk the
three keyword tiers adding or subtracting for every keyword contained in the
lowercased description, multiply by 1.5 on a multi-piece pattern, add
5 per inch above 32 when an inch size above 32 is found, and floor at 10.0.
The body never raises, so its catch-all (line 429) is unreachable. -/
def estimatePriceFromDescription (description : String) : ℚ :=
  let ld := pyLower description
  let b1 := highValueKeywords.foldl (fun b k => if containsSub k ld then b + 50 else b) (50 : ℚ)
  let b2 := midValueKeywords.foldl (fun b k => if containsSub k ld then b + 15 else b) b1
  let b3 := lowValueKeywords.foldl (fun b k => if containsSub k ld then b - 5 else b) b2
  let b4 := if hasSetOfNum ld.data || hasNumPiece ld.data then b3 * mkRat 3 2 else b3
  let b5 :=
    match findInchSize ld.data with
    | some size => if size > 32 then b4 + ((size : ℚ) - 32) * 5 else b4
    | none => b4
  pyMax b5 10

/-- Modelled from the claim wording, for comparison only: the estimator the
claim describes, whose starting base is the category price of the item's
product-info category. The source function receives no category input and
always starts at 50.0. -/
def estimatePriceAsClaimed (category : String) (description : String) : ℚ :=
  let ld := pyLower description
  let b1 := highValueKeywords.foldl (fun b k => if containsSub k ld then b + 50 else b)
    (categoryBasePrices category)
  let b2 := midValueKeywords.foldl (fun b k => if containsSub k ld then b + 15 else b) b1
  let b3 := lowValueKeywords.foldl (fun b k => if containsSub k ld then b - 5 else b) b2
  let b4 := if hasSetOfNum ld.data || hasNumPiece ld.data then b3 * mkRat 3 2 else b3
  let b5 :=
    match findInchSize ld.data with
    | some size => if size > 32 then b4 + ((size : ℚ) - 32) * 5 else b4
    | none => b4
  pyMax b5 10

/-! ## Market price lookup (src/scraper/price_finder.py lines 433-538)

`get_best_market_price` drives the LLM query stage, the query fallback chain,
the Google and Amazon searches and the keyword estimator. The network-backed
stages are oracles: `Except.error ()` stands for the Python call raising. -/

/-- The dict `_process_llm_response` returns, as `generate_search_query`
hands it to the pricing stage: either an error marker or the extracted
fields (src/scraper/llm_query_generator.py lines 262-285). An absent or
empty string field is `none`. -/
structure LLMResults where
  hasError : Bool := false
  product_type : Option String := none
  brand : Option String := none
  model : Option String := none
  attributes : Option String := none
  google_query : Option String := none
  amazon_query : Option String := none
  insufficient_identification : Bool := false
deriving DecidableEq

/-- Outcomes of the external calls made during one `get_best_market_price`
invocation. `Except.error ()` models the call raising an exception. -/
structure PriceEnv where
  llm : Except Unit (Option LLMResults)
  google : Except Unit (Option ℚ)
  amazon : Except Unit (Option ℚ)

/-- The `llm_product_info` mapping stored at lines 448-453, with the dict
defaults of the source. -/
def llmInfoOfResults (r : LLMResults) : LLMProductInfo :=
  { product_type := r.product_type.getD "Unknown",
    brand := r.brand.getD "Unknown",
    model := r.model.getD "Unknown",
    attributes := r.attributes.getD "N/A" }

/-- The LLM stage (lines 441-476): on a usable LLM result the product info is
stored on the item; an insufficiently identified item is flagged and the
whole lookup short-circuits to price 0.0; otherwise the generated queries are
passed on. An exception from the stage is swallowed by the inner handler
(line 475), and so is the type error of testing `error in llm_results`
against a `None` result (line 473, also inside the inner try). -/
def llmStage (openrouterEnabled : Bool) (llm : Except Unit (Option LLMResults))
    (item : Item) : Item × Option (ℚ × Item) × Option String × Option String :=
  if openrouterEnabled then
    match llm with
    | .error _ => (item, none, none, none)
    | .ok none => (item, none, none, none)
    | .ok (some r) =>
      if r.hasError then (item, none, none, none)
      else
        let item1 := { item with llm_product_info := some (llmInfoOfResults r) }
        if r.insufficient_identification then
          (item1, some (0, { item1 with skip_for_processing := true }), none, none)
        else
          (item1, none,
           (match r.google_query with
            | some q => if q = "" then none else some q
            | none => none),
           (match r.amazon_query with
            | some q => if q = "" then none else some q
            | none => none))
  else (item, none, none, none)

/-- The traditional query fallback chain of lines 479-489:
`final_search_query`, then `rich_search_query`, then
`enhanced_description or description`; `none` when every source is falsy. -/
def fallbackQuery (item : Item) : Option String :=
  if strTruthy item.final_search_query then item.final_search_query
  else if strTruthy item.rich_search_query then item.rich_search_query
  else
    let q := if item.enhanced_description.getD "" ≠ "" then item.enhanced_description.getD ""
             else item.description
    if q = "" then none else some q

/-- The query a `get_best_market_price` run settles on before consulting the
search backends: the LLM Google query when one was produced, otherwise the
fallback chain. -/
def resolvedQuery (openrouterEnabled : Bool) (llm : Except Unit (Option LLMResults))
    (item : Item) : Option String :=
  let st := llmStage openrouterEnabled llm item
  match st.2.2.1 with
  | some q => some q
  | none => fallbackQuery st.1

/-- The category enhancement of lines 497-506. The source guard also tests
`error in item['llm_product_info']`, but the stored mapping never carries an
`error` key, so the guard reduces to the LLM integration being off. -/
def categoryEnhance (item : Item) (q : String) : String :=
  match item.product_info with
  | some pi =>
    if pi.confidence > mkRat 3 5 ∧ pi.category ≠ "" ∧
        ¬ containsSub pi.category (pyLower q) then
      q ++ " " ++ pi.category
    else q
  | none => q

/-- The final source selection of lines 511-534: a positive Google price
wins, else a positive Amazon price, else the keyword estimator. -/
def pickPrice (gp ap : Option ℚ) (q : String) (item : Item) : ℚ × Item :=
  match gp with
  | some g =>
    if g > 0 then (g, item)
    else
      match ap with
      | some a => if a > 0 then (a, item) else (estimatePriceFromDescription q, item)
      | none => (estimatePriceFromDescription q, item)
  | none =>
    match ap with
    | some a => if a > 0 then (a, item) else (estimatePriceFromDescription q, item)
    | none => (estimatePriceFromDescription q, item)

/-- `get_best_market_price`: returns the price together with the item state
(the Python function mutates the dict in place). An exception escaping to the
top-level handler (lines 535-538) yields the fixed default 25.0 with the
mutations made so far kept. -/
def getBestMarketPrice (openrouterEnabled amazonEnabled : Bool) (env : PriceEnv)
    (item : Item) : ℚ × Item :=
  let st := llmStage openrouterEnabled env.llm item
  match st.2.1 with
  | some res => res
  | none =>
    match resolvedQuery openrouterEnabled env.llm item with
    | none => (0, st.1)
    | some q0 =>
      let q := if ¬ openrouterEnabled then categoryEnhance st.1 q0 else q0
      let item2 := { st.1 with used_search_query := some q }
      match env.google with
      | .error _ => (25, item2)
      | .ok gp =>
        if (gp = none ∨ gp = some 0) ∧ amazonEnabled then
          match env.amazon with
          | .error _ => (25, item2)
          | .ok ap => pickPrice gp ap q item2
        else pickPrice gp none q item2

/-! ## Per-item loops (src/scraper/auction_bot.py, src/main.py)

`process_all_items` wraps each item in its own try block (lines 241-266);
`determine_market_prices` has no per-item handler (lines 284-310), so an
exception there unwinds to the run-level handler in `main`
(src/main.py lines 98-101). The per-item work is an oracle:
`Except.error ()` models the step raising, `Except.ok none` models
`extract_item_details` returning a falsy item. -/

/-- The extraction loop body of `process_all_items` lines 240-266: a raised
exception is caught and logged, a falsy extraction result is skipped, and in
both cases the loop continues with the next URL. -/
def processItemsLoop (step : String → Except Unit (Option Item)) : List String → List Item
  | [] => []
  | u :: us =>
    match step u with
    | .error _ => processItemsLoop step us
    | .ok none => processItemsLoop step us
    | .ok (some it) => it :: processItemsLoop step us

/-- The current-bid parse of lines 288-295: strip the dollar sign and commas,
then `float(...)` with 0.0 on failure. -/
def parseCurrentBid (s : String) : ℚ :=
  (pyFloat ⟨s.data.filter (fun c => c ≠ '$' ∧ c ≠ ',')⟩).getD 0

/-- The pricing loop of `determine_market_prices` lines 284-311, with the
per-item price lookup as an oracle. There is no try block inside the loop:
when the step raises, the exception propagates, the returned flag is false
and the remaining items keep their unpriced state (the parsed bid of the
failing item has already been written). -/
def determineMarketPrices (priceStep : Item → Except Unit ℚ) :
    List Item → List Item × Bool
  | [] => ([], true)
  | it :: its =>
    let cb := parseCurrentBid it.currentBid
    let it1 := { it with current_bid_float := some cb }
    match priceStep it1 with
    | .error _ => (it1 :: its, false)
    | .ok mp =>
      let it2 := { it1 with
        market_price := some mp,
        potential_profit := some (if mp > 0 then mp - cb else 0) }
      let (rest, done) := determineMarketPrices priceStep its
      (it2 :: rest, done)

/-! ## Model-number classification (src/scraper/object_detector.py lines 393-450)

`_is_model_number` strips and despaces its input, rejects short strings,
then applies 18 anchored patterns with the ignore-case flag (embedded on the
lowercased string, where every letter class becomes `Char.isAlpha`), and
finally accepts a pure alphanumeric string with at least two letters, at
least two digits and a letter share between 20 and 80 percent. -/

/-- Letter class with bounds. -/
def pA (lo hi : Nat) : RPat := .cls Char.isAlpha lo hi

/-- Digit class with bounds. -/
def pD (lo hi : Nat) : RPat := .cls Char.isDigit lo hi

/-- Sequence of pattern pieces. -/
def pSeq (l : List RPat) : RPat := l.foldr .seq .eps

/-- The 18 anchored patterns of lines 410-434, in source order. -/
def modelNumberPatterns : List RPat :=
  [ pSeq [pA 1 4, .cls (fun c => c = '-') 0 1, pD 2 6],
    pSeq [pA 2 4, pD 2 4, pA 0 1],
    pSeq [pA 2 8, pD 4 8],
    pSeq [pD 1 4, pA 1 3, pD 1 4],
    pSeq [pA 1 1, pD 1 2, .lit "-", pD 1 4, pA 0 1],
    pSeq [pA 2 4, .lit "-", pA 1 1, pD 1 4],
    pSeq [.alt (.lit "un") (.alt (.lit "qn") (.lit "ln")), pD 2 2, pA 1 1, pD 4 4, pA 1 1],
    pSeq [pA 2 2, .lit "-", pA 1 1, pD 4 4, pA 1 1],
    pSeq [.alt (.lit "mh") (.alt (.lit "ml") (.alt (.lit "ms") (.lit "mp"))), pD 2 4, pA 0 1],
    pSeq [pA 3 3, pD 4 4, pA 1 2],
    pSeq [pA 2 2, pD 2 4, pA 0 2],
    .alt (pSeq [.lit "sm-", pA 1 1, pD 3 4])
      (pSeq [.lit "galaxy", .cls isPyWs 0 1, .lit "s", pD 1 2]),
    pSeq [.lit "iphone", .cls isPyWs 0 1, pD 1 2],
    pSeq [pA 1 2, pD 1 3, .lit "-", .alt (.lit "bt") (.alt (.lit "xt") (.lit "lt"))],
    pSeq [pA 2 4, .lit "-", pD 2 4, pA 0 1, .lit "-", pA 1 2],
    .alt (pSeq [pA 2 3, .lit "-", pD 3 5]) (pSeq [pD 2 3, .lit "-", pD 3 3]),
    pD 12 13,
    pSeq [pD 3 3, .lit "-", pD 3 3, .lit "-", pD 4 4] ]

/-- `_is_model_number`. The final letter-share test `0.20 <= letters/len
<= 0.80` is embedded by the exact integer inequalities `len <= 5 * letters`
and `5 * letters <= 4 * len`; at the small sizes involved the binary float
quotient and the rational quotient decide these bounds identically. -/
def isModelNumber (text : String) : Bool :=
  let t : List Char := (pyStrip text).data.filter (fun c => c ≠ ' ')
  if t.length < 3 then false
  else
    let lt : List Char := t.map Char.toLower
    if modelNumberPatterns.any (fun p => rmatchFull p ⟨lt⟩) then true
    else if t.all Char.isAlphanum then
      let letters := (t.filter Char.isAlpha).length
      let numbers := (t.filter Char.isDigit).length
      2 ≤ letters && 2 ≤ numbers && t.length ≤ 5 * letters && 5 * letters ≤ 4 * t.length
    else false

/-! ## Object-detection enrichment (src/scraper/object_detector.py lines 452-575)

`enhance_item_with_object_detection` walks the saved images (all but the
last when there are several), merges the detector outputs, deduplicates, and
synthesizes `rich_search_query`. The detector itself wraps the vision API and
local OpenCV heuristics, so its per-image outcome is an oracle. -/

/-- The dict `detect_objects_in_image` returns for one image, `none` when the
call returned `None`. -/
structure DetectRaw where
  objects : List String := []
  brands : List String := []
  model_info : List String := []
  colors : List String := []
  text : List String := []
deriving DecidableEq

/-- Per-image oracle for the object-detection loop: whether the image file
was saved on disk (line 491), and what the detector returned (line 495). -/
structure DetectEnv where
  fileSaved : Nat → Bool
  results : Nat → Option DetectRaw

/-- The accumulation loop of lines 485-518: a missing file or an absent
result contributes nothing; an exception inside the body would likewise be
caught and skipped. -/
def gatherDetections (env : DetectEnv) (count : Nat) : DetectionResults :=
  (List.range count).foldl
    (fun acc i =>
      if env.fileSaved i then
        match env.results i with
        | some r =>
          { detected_objects := acc.detected_objects ++ r.objects,
            detected_brands := acc.detected_brands ++ r.brands,
            model_numbers := acc.model_numbers ++ r.model_info,
            colors := acc.colors ++ r.colors,
            additional_text := acc.additional_text ++ r.text }
        | none => acc
      else acc)
    {}

/-- The query parts of lines 528-546: brand text, model text, top three
objects, top two colors, each kept when non-empty after joining. -/
def richParts (dr : DetectionResults) : List String :=
  let brand_text := pyStrip (joinSpace dr.detected_brands)
  let model_text := pyStrip (joinSpace dr.model_numbers)
  let object_text := pyStrip (joinSpace (dr.detected_objects.take 3))
  let color_text := pyStrip (joinSpace (dr.colors.take 2))
  (if brand_text ≠ "" then [brand_text] else []) ++
  (if model_text ≠ "" then [model_text] else []) ++
  (if object_text ≠ "" then [object_text] else []) ++
  (if color_text ≠ "" then [color_text] else [])

/-- The original-description fallback of lines 549-553: enhanced description
when non-empty, else the raw description, with lot tags removed. -/
def lotCleanedOriginal (it : Item) : String :=
  let od := if it.enhanced_description.getD "" ≠ "" then it.enhanced_description.getD ""
            else it.description
  if containsSub "Lot #" od then pyStrip (removeLotTags od) else od

/-- The merged, deduplicated detection results stored as
`item['object_detection']` (lines 482-525): all but the last of several
images contribute. -/
def detectionSummary (env : DetectEnv) (it : Item) : DetectionResults :=
  let imgs := if it.images.length > 1 then it.images.dropLast else it.images
  let dr0 := gatherDetections env imgs.length
  { detected_objects := pySet dr0.detected_objects,
    detected_brands := pySet dr0.detected_brands,
    model_numbers := pySet dr0.model_numbers,
    colors := pySet dr0.colors,
    additional_text := pySet dr0.additional_text }

/-- The detection-backed query of lines 556-566: parts then a shortened
description, whitespace-normalised, cut at 200 characters. -/
def buildRichQuery (parts : List String) (od : String) : String :=
  let maxw := if parts.length > 2 then 30 else 50
  let short_desc := joinSpace ((pySplit od).take maxw)
  let rich1 := joinSpace (pySplit (joinSpace parts ++ " " ++ short_desc))
  if rich1.length > 200 then strTake 200 rich1 else rich1

/-- `enhance_item_with_object_detection`. With detection-derived parts the
query is `buildRichQuery` (lines 556-569); with no parts the query is the
original description unchanged and uncut (line 572). -/
def enhanceItemWithObjectDetection (env : DetectEnv) (it : Item) : Item :=
  if it.images = [] then it
  else
    let dr := detectionSummary env it
    let parts := richParts dr
    let od := lotCleanedOriginal it
    { it with
      object_detection := some dr,
      rich_search_query := some (if parts ≠ [] then buildRichQuery parts od else od) }

/-! ## Image OCR enrichment (src/scraper/image_processor.py)

`process_images` downloads and OCRs the item images (skipping OCR for the
last image when there are several), scans the OCR text for brands and
model-number tokens, and builds `enhanced_description`. Downloading, OpenCV
preprocessing and tesseract are effects; the per-image combined OCR output is
an oracle. -/

/-- An apostrophe as a string (used inside brand names). -/
def apos : String := ⟨[Char.ofNat 39]⟩

/-- The brand list of src/scraper/image_processor.py lines 57-73, in source
order, duplicates included. -/
def commonBrandsIP : List String :=
  ["samsung", "sony", "apple", "lg", "bosch", "dewalt", "milwaukee",
   "makita", "craftsman", "ryobi", "stanley", "black and decker", "black & decker",
   "kitchenaid", "whirlpool", "ge", "general electric", "maytag", "kenmore",
   "frigidaire", "philips", "panasonic", "toshiba", "sharp", "dell", "hp",
   "microsoft", "lenovo", "asus", "acer", "canon", "nikon", "sony", "gopro",
   "bose", "sennheiser", "jbl", "sonos", "klipsch", "polk", "pioneer",
   "yamaha", "denon", "vizio", "insignia", "nintendo", "playstation", "xbox",
   "dyson", "shark", "hoover", "eureka", "bissell", "miele", "roomba", "irobot",
   "nutribullet", "kitchenaid", "cuisinart", "ninja", "breville", "calphalon",
   "coleman", "weber", "traeger", "yeti", "north face", "patagonia", "columbia",
   "nike", "adidas", "under armour", "new balance", "puma", "reebok",
   "levi" ++ apos ++ "s", "gap", "calvin klein", "ralph lauren", "gucci", "coach",
   "rolex", "casio", "citizen", "seiko", "timex", "fossil", "omega",
   "lego", "mattel", "hasbro", "fisher price", "barbie", "nerf",
   "ikea", "ashley", "la-z-boy", "ethan allen", "thomasville", "bassett"]

/-- Word-boundary search for a literal brand (the source's `re.search` of the
escaped brand between two boundary assertions). -/
def brandOccurs (brand text : String) : Bool :=
  rsearch (.seq .bnd (.seq (.lit brand) .bnd)) text

/-- Scan lowercased text against the brand list, keeping list order
(lines 196-199). -/
def brandScanText (text : String) : List String :=
  commonBrandsIP.filter (fun b => brandOccurs b text)

/-- Colon-or-space class of the labelled model patterns. -/
def colonSpace (c : Char) : Bool := c = ':' || c = ' '

/-- Class of the model token bodies (letters, digits, hyphen; applied to
lowercased text). -/
def amc (c : Char) : Bool := c.isAlphanum || c = '-'

/-- The 12 model-number patterns of lines 76-89, in source order, each with
its capture group. -/
def imageModelPatterns : List RPat :=
  [ pSeq [.lit "model", .cls colonSpace 0 1, .grp (.cls amc 3 15)],
    pSeq [.lit "part", .cls (fun c => c = '.' || c = ':' || c = ' ' || c = '#') 0 1,
          .grp (.cls amc 3 15)],
    pSeq [.lit "series", .cls colonSpace 0 1, .grp (.cls amc 2 10)],
    pSeq [.lit "type", .cls colonSpace 0 1, .grp (.cls amc 2 10)],
    pSeq [.bnd, .grp (pSeq [pA 1 4, pD 2 6]), .bnd],
    pSeq [.bnd, .grp (pSeq [pA 1 4, .lit "-", pD 2 6]), .bnd],
    pSeq [.bnd, .grp (pSeq [pD 1 4, pA 1 4]), .bnd],
    pSeq [.bnd, .grp (pSeq [.lit "v", pD 1 3]), .bnd],
    pSeq [.lit "#", .cls isPyWs 0 1, .grp (.cls (fun c => c.isAlphanum) 5 12), .bnd],
    pSeq [.lit "sku", .cls colonSpace 0 1, .grp (.cls amc 4 15)],
    pSeq [.lit "upc", .cls colonSpace 0 1, .grp (.cls (fun c => c.isDigit || c = '-') 10 15)],
    pSeq [.lit "ean", .cls colonSpace 0 1, .grp (.cls (fun c => c.isDigit || c = '-') 10 15)] ]

/-- Collect the model tokens of a lowercased text: every pattern's findall
results of length at least 3, in pattern-major order (lines 202-209). -/
def modelScanText (text : String) : List String :=
  imageModelPatterns.flatMap (fun p => (rfindall p text).filter (fun m => 3 ≤ m.length))

/-- Per-image oracle of `process_images`: whether the download and decode
succeeded, and the space-joined output of the four OCR preprocessing
variants. -/
structure OcrEnv where
  download : Nat → Bool
  combined : Nat → String

/-- Characters the OCR text cleaning keeps (line 192). -/
def ocrAllowed (c : Char) : Bool :=
  c.isAlphanum || isPyWs c || c = '.' || c = ',' || c = '-' || c = '$' ||
  c = '%' || c = '#' || c = '/'

/-- Characters the enhanced-description cleaning keeps (lines 284 and 299). -/
def enhAllowed (c : Char) : Bool :=
  c.isAlphanum || isPyWs c || c = '.' || c = ',' || c = '-' || c = '#'

/-- Lot-tag removal applied to a description when it carries a lot marker
(lines 235-237 and 294-296). -/
def cleanDescriptionIP (s : String) : String :=
  if containsSub "Lot #" s then pyStrip (removeLotTags s) else s

/-- The cleaned original description the no-OCR branch stores as the
enhanced description (lines 293-301): lot tags removed, characters outside
the allowed set replaced by spaces, whitespace collapsed, stripped. -/
def cleanOriginalDescription (s : String) : String :=
  pyStrip (collapseWs (filterChars enhAllowed (cleanDescriptionIP s)))

/-- The image loop of lines 93-218: per image, skip on download failure,
skip OCR for the last of several images, and otherwise clean the combined
OCR output and collect it with the brands and model tokens found in it.
Returns the accumulators `ocr_texts`, `brands_found`,
`model_numbers_found`. -/
def ocrGather (env : OcrEnv) (n : Nat) : List String × List String × List String :=
  (List.range n).foldl
    (fun acc i =>
      if ¬ env.download i then acc
      else if i = n - 1 ∧ n > 1 then acc
      else
        let c := env.combined i
        if pyStrip c ≠ "" then
          let cleaned := filterChars ocrAllowed (joinSpace (pySplit (pyStrip c)))
          let lower := pyLower cleaned
          (acc.1 ++ [cleaned], acc.2.1 ++ brandScanText lower, acc.2.2 ++ modelScanText lower)
        else acc)
    ([], [], [])

/-- `process_images`. With an empty image list the guard of lines 33-35
returns the item unchanged. With OCR text the enhanced description combines
the cleaned description, the found brands and model tokens and the OCR text
(lines 221-289); with none, the else branch of lines 290-306 stores the
cleaned original description and empty token lists. -/
def processImages (env : OcrEnv) (it : Item) : Item :=
  if it.images = [] then it
  else
    let g := ocrGather env it.images.length
    let texts := g.1
    let brands := g.2.1
    let models := g.2.2
    if texts ≠ [] then
      let filtered := texts.filter (fun t => t.length > 10)
      let combined_ocr := joinSpace filtered
      let clean_description := cleanDescriptionIP it.description
      let orig_models := modelScanText (pyLower clean_description)
      let combined_description :=
        if orig_models ≠ [] then
          let unique_brands :=
            brands.filter (fun b => ¬ containsSub (pyLower b) (pyLower clean_description))
          let brand_enhancement :=
            if brands ≠ [] ∧ unique_brands ≠ [] then joinSpace (pySet unique_brands) ++ " "
            else ""
          clean_description ++ " " ++ brand_enhancement ++ combined_ocr
        else
          let important :=
            (if brands ≠ [] then [joinSpace (pySet brands)] else []) ++
            (if models ≠ [] then [joinSpace (pySet models)] else [])
          if important ≠ [] then
            joinSpace important ++ " " ++ clean_description ++ " " ++ combined_ocr
          else clean_description ++ " " ++ combined_ocr
      { it with
        ocr_text := some combined_ocr,
        ocr_brands := some (pySet brands),
        ocr_model_numbers := some (pySet models),
        enhanced_description :=
          some (pyStrip (collapseWs (filterChars enhAllowed combined_description))) }
    else
      { it with
        enhanced_description := some (cleanOriginalDescription it.description),
        ocr_brands := some [],
        ocr_model_numbers := some [] }

/-! ## Final pricing query (src/scraper/product_identifier.py lines 435-621)

`_generate_pricing_query` assembles a focused query from the cleaned
description, OCR and detection tokens and the category, normalises and
truncates it — and then, in its closing log statement (line 615),
interpolates `query_quality`, a name never bound anywhere in the function.
That statement therefore raises a `NameError` on every call, the handler of
lines 618-621 catches it, and the function returns the raw original
description instead of the assembled query. -/

/-- The brand list of lines 526-538, in source order. -/
def commonBrandsPQ : List String :=
  ["samsung", "sony", "apple", "lg", "bosch", "dewalt", "milwaukee",
   "makita", "craftsman", "ryobi", "stanley", "black and decker", "black & decker",
   "kitchenaid", "whirlpool", "ge", "general electric", "maytag", "kenmore",
   "frigidaire", "philips", "panasonic", "toshiba", "sharp", "dell", "hp",
   "microsoft", "lenovo", "asus", "acer", "canon", "nikon", "gopro",
   "bose", "sennheiser", "jbl", "sonos", "klipsch", "polk", "pioneer",
   "yamaha", "denon", "vizio", "insignia", "nintendo", "playstation", "xbox",
   "dyson", "shark", "hoover", "eureka", "bissell", "miele", "roomba", "irobot",
   "nutribullet", "cuisinart", "ninja", "breville", "calphalon",
   "coleman", "weber", "traeger", "yeti", "north face", "patagonia", "columbia",
   "nike", "adidas", "under armour", "new balance", "puma", "reebok"]

/-- The seven model-or-serial patterns of lines 551-559, in source order. -/
def descModelPatterns : List RPat :=
  [ pSeq [.bnd, pA 1 4, .lit "-", pD 2 6, .bnd],
    pSeq [.bnd, pA 2 4, pD 2 4, pA 0 1, .bnd],
    pSeq [.bnd, pA 2 8, pD 4 8, .bnd],
    pSeq [.bnd, .lit "model", .clsPlus (fun c => c = ':' || isPyWs c),
          .grp (.cls amc 3 15), .bnd],
    pSeq [.bnd, .lit "part", .clsPlus (fun c => c = ':' || c = '#' || isPyWs c),
          .grp (.cls amc 3 15), .bnd],
    pSeq [.bnd, .alt (.lit "serial") (.lit "s/n"),
          .clsPlus (fun c => c = ':' || c = '#' || isPyWs c), .grp (.cls amc 3 15), .bnd],
    pSeq [.bnd, .alt (.lit "model") (.alt (.lit "mod") (.lit "mdl")),
          .clsPlus (fun c => c = ':' || c = '#' || isPyWs c), .grp (.cls amc 3 15), .bnd] ]

/-- Text of the leftmost match of an ignore-case pattern: the span is found
on the lowercased string and the original-case slice is returned, as
`match.group(0)` does. -/
def searchGroup0 (p : RPat) (s : String) : Option String :=
  match rspan p (pyLower s) with
  | some sp => some ⟨(s.data.drop sp.1).take sp.2⟩
  | none => none

/-- The model-in-description scan of lines 549-565: first pattern that
matches anywhere in the base description wins. -/
def firstModelInDesc (base : String) : Option String :=
  descModelPatterns.foldl
    (fun acc p =>
      match acc with
      | some m => some m
      | none => searchGroup0 p base)
    none

/-- The OCR-model collection of lines 469-480: uppercased models not already
contained in the uppercased base description, first occurrences only. -/
def buildUniqueModels (base : String) (models : List String) : List String :=
  models.foldl
    (fun acc m =>
      let mu := pyUpper m
      if ¬ containsSub mu (pyUpper base) ∧ mu ∉ acc then acc ++ [mu] else acc)
    []

/-- `_generate_pricing_query` up to and including the truncation of
lines 612-613 — the value `final_query` holds when control reaches the
fatal log statement. -/
def pricingQueryFinal (it : Item) : String :=
  let od0 := it.description
  let od1 := if od0 ≠ "" ∧ containsSub "Lot #" od0 then pyStrip (removeLotTags od0) else od0
  let od := if od1 = "" then it.enhanced_description.getD "" else od1
  let words := pySplit od
  let base0 := if words.length > 15 then joinSpace (words.take 15) else od
  let ocr_models := it.ocr_model_numbers.getD []
  let unique_models := buildUniqueModels base0 ocr_models
  let parts1 := if unique_models ≠ [] then unique_models.take 2 else []
  let ocr_brands := it.ocr_brands.getD []
  let parts2 := parts1 ++
    (match ocr_brands.find? (fun b => ¬ containsSub (pyLower b) (pyLower base0)) with
     | some b => [pyTitle b]
     | none => [])
  let detection := it.object_detection.getD {}
  let parts3 :=
    if detection.detected_brands ≠ [] ∧ parts2 = [] then
      parts2 ++
        (match detection.detected_brands.find?
            (fun b => ¬ containsSub (pyLower b) (pyLower base0) ∧
              pyLower b ∉ parts2.map pyLower) with
         | some b => [pyTitle b]
         | none => [])
    else parts2
  let parts4 := parts3 ++
    (match detection.model_numbers.find?
        (fun m => ¬ containsSub (pyUpper m) (pyUpper base0) ∧
          pyUpper m ∉ parts3.map pyUpper) with
     | some m => [pyUpper m]
     | none => [])
  let category := (it.product_info.getD {}).category
  let parts5 :=
    if category ≠ "" ∧ ¬ containsSub (pyLower category) (pyLower base0) ∧
        pyLower category ∉ parts4.map pyLower then
      parts4 ++ [category]
    else parts4
  let brandInDesc := commonBrandsPQ.find? (fun b => brandOccurs b (pyLower base0))
  let modelInDesc := firstModelInDesc base0
  let base :=
    match brandInDesc, modelInDesc with
    | some b, some m =>
      let fq := b ++ " " ++ m
      if fq.length > 10 then fq else base0
    | _, _ => base0
  let final0 :=
    match modelInDesc with
    | some _ =>
      let brand_parts := parts5.filter
        (fun p => pyLower p ∈ (ocr_brands ++ detection.detected_brands).map pyLower)
      if brand_parts ≠ [] then joinSpace (brand_parts.take 1) ++ " " ++ base else base
    | none => if parts5 ≠ [] then joinSpace parts5 ++ " " ++ base else base
  let final1 :=
    if category ≠ "" ∧ ¬ containsSub category (pyLower final0) then
      final0 ++ " " ++ category
    else final0
  let final2 := pyStrip (collapseWs final1)
  if final2.length > 150 then strTake 150 final2 else final2

/-- The try block of `_generate_pricing_query`: the query is fully computed,
then the log statement at line 615 evaluates the unbound name
`query_quality` and raises a `NameError` before the value can be returned. -/
def pricingQueryTry (it : Item) : Except Unit String :=
  let _ := pricingQueryFinal it
  Except.error ()

/-- `_generate_pricing_query` as observed by its caller: the exception
handler of lines 618-621 turns the unconditional `NameError` into the raw
original description. -/
def generatePricingQuery (it : Item) : String :=
  match pricingQueryTry it with
  | .ok q => q
  | .error _ => it.description

/-! ## Concrete inputs used by the theorems below -/

/-- An item whose bid exceeds the market price. -/
def itBidAbove : Item := { current_bid_float := some 30, market_price := some 10 }

/-- An item with a positive margin. -/
def itProfitable : Item := { current_bid_float := some 50, market_price := some 150 }

/-- An item that arrives at report time already flagged by the pricing stage,
as `get_best_market_price` leaves it after insufficient identification. -/
def itPreflagged : Item :=
  { description := "flagged item",
    skip_for_processing := true,
    llm_product_info := some ⟨"Unknown", "Unknown", "Unknown", "N/A"⟩,
    current_bid_float := some 5,
    market_price := some 0 }

/-- A 160-character single-word description. -/
def itLongDesc : Item := { description := ⟨List.replicate 160 'a'⟩ }

/-- A pricing step that raises on lot A and prices everything else at 40. -/
def priceStepAB : Item → Except Unit ℚ :=
  fun it => if it.lotNumber = "A" then .error () else .ok 40

/-- Lot A, whose pricing raises. -/
def itLotA : Item := { lotNumber := "A", currentBid := "$10.00" }

/-- Lot B, whose pricing would succeed. -/
def itLotB : Item := { lotNumber := "B", currentBid := "$2.00" }

/-- An extraction step that raises on one URL. -/
def extractStepF : String → Except Unit (Option Item) :=
  fun u => if u = "f" then .error () else .ok (some { itemUrl := u })

/-- An OCR oracle on which every download fails and no OCR text is ever
produced. -/
def envOcrNone : OcrEnv := { download := fun _ => false, combined := fun _ => "" }

/-- An item carrying a lot-tagged description and no images. -/
def itNoImages : Item := { description := "Lot #12: Cool Gadget!!" }

/-- The same description with one image. -/
def itOneImage : Item := { description := "Lot #12: Cool Gadget!!", images := ["u1"] }

/-- A detection oracle that finds nothing (the image file was never saved). -/
def envNoDet : DetectEnv := { fileSaved := fun _ => false, results := fun _ => none }

/-- A detection oracle that reports a brand and a model for every image. -/
def envDet : DetectEnv :=
  { fileSaved := fun _ => true,
    results := fun _ => some { brands := ["sony"], model_info := ["x100"] } }

/-- A 210-character description on an item with one image. -/
def itLongDescImg : Item := { description := ⟨List.replicate 210 'a'⟩, images := ["u1"] }

/-- An LLM outcome that flags insufficient identification. -/
def envLLMShort : PriceEnv :=
  { llm := .ok (some { insufficient_identification := true }),
    google := .error (),
    amazon := .error () }

/-- An environment whose LLM stage raises and whose Google search raises. -/
def envGoogleRaise : PriceEnv := { llm := .error (), google := .error (), amazon := .ok none }

/-- A plain item with only a description. -/
def itPlain : Item := { lotNumber := "L1", description := "d" }

/-- An item with every field at its default. -/
def itEmptyFields : Item := {}

/-- An environment in which the LLM produced nothing and both searches
return no price. -/
def envNoQuery : PriceEnv := { llm := .ok none, google := .ok none, amazon := .ok none }

/-- Number of keywords of a tier contained in the lowercased description. -/
def keywordCount (ks : List String) (d : String) : Nat :=
  (ks.filter (fun k => containsSub k (pyLower d))).length

/-- The size bonus of the estimator: 5 per inch above 32, 0 otherwise. -/
def inchBonus (d : String) : ℚ :=
  match findInchSize (pyLower d).data with
  | some size => if size > 32 then ((size : ℚ) - 32) * 5 else 0
  | none => 0

/-- The multi-piece test of the estimator. -/
def multiPiece (d : String) : Bool :=
  hasSetOfNum (pyLower d).data || hasNumPiece (pyLower d).data

/-! ## Theorems -/

/-- C9: the model-number classifier accepts RTX3080 and ABC-123 and rejects
the too-short or letter-only strings, as the claim states — but it rejects
SM-G970F, the very string its own docstring lists as a model-number shape:
no pattern admits the trailing letter after SM-G970, and the hyphen blocks
the alphanumeric-mix fallback. -/
theorem isModelNumber_examples :
    isModelNumber "RTX3080" = true ∧
    isModelNumber "ABC-123" = true ∧
    isModelNumber "the" = false ∧
    isModelNumber "ab" = false ∧
    isModelNumber "SM-G970F" = false :=
  ⟨by decide, by decide, by decide, by decide, by decide⟩

/-- C2: an item that reaches report generation with `skip_for_processing`
already true is NOT excluded — the guard of report_generator.py line 35 only
examines items that are not yet flagged — and the metadata skipped count
stays 0. The claim (and the intent documented at the flag's writers) says
the item is excluded and counted. -/
theorem report_includes_preflagged_item :
    itPreflagged.skip_for_processing = true ∧
    (generateReportData true [itPreflagged]).1 = [reportRowOf itPreflagged] ∧
    (generateReportData true [itPreflagged]).2 = 0 :=
  ⟨by with_unfolding_all rfl, by with_unfolding_all rfl, by with_unfolding_all rfl⟩

/-- C3: `_generate_pricing_query` never returns its assembled query: the
closing log statement reads the unbound name `query_quality`, so every call
raises a `NameError` and the handler returns the raw description — here 160
characters long, far beyond the claimed 150-character cap, while the
discarded body value was correctly truncated to 150. -/
theorem pricingQuery_returns_raw_description :
    generatePricingQuery itLongDesc = itLongDesc.description ∧
    (generatePricingQuery itLongDesc).length = 160 ∧
    ¬ (generatePricingQuery itLongDesc).length ≤ 150 ∧
    pricingQueryFinal itLongDesc = strTake 150 itLongDesc.description ∧
    (pricingQueryFinal itLongDesc).length = 150 :=
  ⟨by with_unfolding_all rfl, by with_unfolding_all rfl, by with_unfolding_all decide,
   by with_unfolding_all rfl, by with_unfolding_all rfl⟩

/-- C1 (counterexample): with bid 30 and market price 10 the produced row
carries potential_profit -20, not `max 0 (10 - 30) = 0` as the claim
requires. -/
theorem report_profit_not_clamped_counterexample :
    (generateReportData false [itBidAbove]).1.map (fun r => r.potential_profit) = [-20] ∧
    pyMax 0 ((10 : ℚ) - 30) = 0 ∧
    ((-20 : ℚ) ≠ 0) :=
  ⟨by with_unfolding_all rfl, by with_unfolding_all rfl, by with_unfolding_all decide⟩

/-- C8 (counterexample): the estimator the claim describes would start a
category jewelry item at base 200, but the source function receives no
category at all and always starts at 50. -/
theorem estimatePrice_ignores_category_counterexample :
    estimatePriceAsClaimed "jewelry" "" = 200 ∧
    estimatePriceFromDescription "" = 50 ∧
    ((200 : ℚ) ≠ 50) :=
  ⟨by with_unfolding_all rfl, by with_unfolding_all rfl, by with_unfolding_all decide⟩

/-- C10 (counterexample): when no detections were produced the fallback
stores the original description without any cap — here 210 characters,
beyond the claimed 200-character limit. -/
theorem richQuery_fallback_uncapped_counterexample :
    (enhanceItemWithObjectDetection envNoDet itLongDescImg).rich_search_query
      = some itLongDescImg.description ∧
    ((enhanceItemWithObjectDetection envNoDet itLongDescImg).rich_search_query.getD "").length
      = 210 ∧
    ¬ ((enhanceItemWithObjectDetection envNoDet itLongDescImg).rich_search_query.getD "").length
      ≤ 200 :=
  ⟨by with_unfolding_all rfl, by with_unfolding_all rfl, by with_unfolding_all decide⟩

/-- C4 (counterexample): an exception while pricing the first item aborts
the pricing loop — the run flag comes back false and the second item is left
without a market price, refuting the claim that the pricing loop catches
per-item failures and continues. -/
theorem pricing_loop_abort_counterexample :
    (determineMarketPrices priceStepAB [itLotA, itLotB]).2 = false ∧
    ((determineMarketPrices priceStepAB [itLotA, itLotB]).1.get? 1).map
      (fun x => x.market_price) = some none :=
  ⟨by with_unfolding_all rfl, by with_unfolding_all rfl⟩

/-- C5 (counterexample): `process_images` returns an item with an empty image
list unchanged — `enhanced_description` is never written (it stays absent,
not the cleaned description) and `ocr_brands` is never set to the empty
list. -/
theorem processImages_empty_images_counterexample :
    processImages envOcrNone itNoImages = itNoImages ∧
    (processImages envOcrNone itNoImages).enhanced_description = none ∧
    (processImages envOcrNone itNoImages).enhanced_description
      ≠ some (cleanOriginalDescription itNoImages.description) ∧
    (processImages envOcrNone itNoImages).ocr_brands ≠ some [] :=
  ⟨by with_unfolding_all rfl, by with_unfolding_all rfl,
   by with_unfolding_all decide, by with_unfolding_all decide⟩

/-- C1 (amended): every row the report loop produces carries
`potential_profit = market_price - current_bid` when the market price is
positive (possibly negative, not clamped at 0) and 0 otherwise, and
`profit_margin = potential_profit / current_bid * 100` when both market
price and bid are positive and 0 otherwise. -/
theorem report_profit_margin_formula (openr : Bool) (items : List Item) (row : ReportRow)
    (hrow : row ∈ (generateReportData openr items).1) :
    row.potential_profit =
      (if 0 < row.market_price then row.market_price - row.current_bid else 0) ∧
    row.profit_margin =
      (if 0 < row.market_price ∧ 0 < row.current_bid then
        row.potential_profit / row.current_bid * 100 else 0) := by
  induction items with
  | nil => simp [generateReportData] at hrow
  | cons it its ih =>
    by_cases h : reportSkipCond openr it
    · rw [show (generateReportData openr (it :: its)).1
          = (generateReportData openr its).1 by simp [generateReportData, h]] at hrow
      exact ih hrow
    · rw [show (generateReportData openr (it :: its)).1
          = reportRowOf it :: (generateReportData openr its).1 by
            simp [generateReportData, h]] at hrow
      rcases List.mem_cons.mp hrow with rfl | htail
      · exact ⟨rfl, rfl⟩
      · exact ih htail

/-- C1 witness: the row of an item with bid 50 and market price 150
satisfies both formulas. -/
theorem report_profit_margin_formula_witness :
    (reportRowOf itProfitable).potential_profit =
      (if 0 < (reportRowOf itProfitable).market_price then
        (reportRowOf itProfitable).market_price - (reportRowOf itProfitable).current_bid
       else 0) ∧
    (reportRowOf itProfitable).profit_margin =
      (if 0 < (reportRowOf itProfitable).market_price ∧
          0 < (reportRowOf itProfitable).current_bid then
        (reportRowOf itProfitable).potential_profit / (reportRowOf itProfitable).current_bid * 100
       else 0) :=
  report_profit_margin_formula false [itProfitable] (reportRowOf itProfitable)
    (by with_unfolding_all decide)

/-- C4 (amended): the extraction loop catches per-item failures — a URL
whose step raises contributes nothing and the loop continues with the
remaining URLs — while the pricing loop has no per-item handler: a step that
raises ends the loop at that item, leaving the rest unprocessed. -/
theorem perItem_loop_error_handling :
    (∀ (step : String → Except Unit (Option Item)) (us₁ us₂ : List String) (u : String),
      step u = .error () →
      processItemsLoop step (us₁ ++ u :: us₂) =
        processItemsLoop step us₁ ++ processItemsLoop step us₂) ∧
    (∀ (step : Item → Except Unit ℚ) (it : Item) (its : List Item),
      step { it with current_bid_float := some (parseCurrentBid it.currentBid) } = .error () →
      determineMarketPrices step (it :: its) =
        ({ it with current_bid_float := some (parseCurrentBid it.currentBid) } :: its, false)) := by
  constructor
  · intro step us₁ us₂ u h
    induction us₁ with
    | nil => simp [processItemsLoop, h]
    | cons v vs ih =>
      rw [List.cons_append]
      rcases hv : step v with _ | o
      · simp [processItemsLoop, hv, ih]
      · cases o <;> simp [processItemsLoop, hv, ih]
  · intro step it its h
    unfold determineMarketPrices
    dsimp only
    rw [h]

/-- C4 witness: both loop behaviours at concrete steps and items. -/
theorem perItem_loop_error_handling_witness :
    processItemsLoop extractStepF (["x"] ++ "f" :: ["y"]) =
      processItemsLoop extractStepF ["x"] ++ processItemsLoop extractStepF ["y"] ∧
    determineMarketPrices priceStepAB (itLotA :: [itLotB]) =
      ({ itLotA with current_bid_float := some (parseCurrentBid itLotA.currentBid) } :: [itLotB],
        false) :=
  ⟨perItem_loop_error_handling.1 extractStepF ["x"] ["y"] "f" (by with_unfolding_all rfl),
   perItem_loop_error_handling.2 priceStepAB itLotA [itLotB] (by with_unfolding_all rfl)⟩

/-- When no image ever yields OCR text, the gathering loop leaves all three
accumulators empty. -/
theorem ocrGather_of_no_text (env : OcrEnv) (n : Nat)
    (h : ∀ i, pyStrip (env.combined i) = "") : ocrGather env n = ([], [], []) := by
  unfold ocrGather
  generalize List.range n = l
  induction l with
  | nil => rfl
  | cons i is ih =>
    rw [List.foldl_cons]
    have hstep : (if ¬ env.download i then (([], [], []) : List String × List String × List String)
        else if i = n - 1 ∧ n > 1 then ([], [], [])
        else
          if pyStrip (env.combined i) ≠ "" then
            (([] : List String) ++ [filterChars ocrAllowed (joinSpace (pySplit (pyStrip (env.combined i))))],
             ([] : List String) ++ brandScanText (pyLower (filterChars ocrAllowed (joinSpace (pySplit (pyStrip (env.combined i)))))),
             ([] : List String) ++ modelScanText (pyLower (filterChars ocrAllowed (joinSpace (pySplit (pyStrip (env.combined i)))))))
          else ([], [], [])) = ([], [], []) := by
      simp [h i]
    rw [hstep]
    exact ih

/-- C5 (amended): an item with an empty image list is returned unchanged by
`process_images` (no enhancement fields are written at all); an item with a
nonempty image list none of whose images yields usable OCR text receives the
cleaned original description as `enhanced_description` and empty
`ocr_brands`/`ocr_model_numbers`. -/
theorem processImages_no_ocr_spec :
    (∀ (env : OcrEnv) (it : Item), it.images = [] → processImages env it = it) ∧
    (∀ (env : OcrEnv) (it : Item), it.images ≠ [] →
      (∀ i, pyStrip (env.combined i) = "") →
      (processImages env it).enhanced_description
          = some (cleanOriginalDescription it.description) ∧
      (processImages env it).ocr_brands = some [] ∧
      (processImages env it).ocr_model_numbers = some []) := by
  constructor
  · intro env it h
    unfold processImages
    rw [if_pos h]
  · intro env it himg hocr
    have hg := ocrGather_of_no_text env it.images.length hocr
    unfold processImages
    rw [if_neg himg, hg]
    exact ⟨rfl, rfl, rfl⟩

/-- C5 witness: both behaviours on the concrete lot-tagged item. -/
theorem processImages_no_ocr_spec_witness :
    processImages envOcrNone itNoImages = itNoImages ∧
    (processImages envOcrNone itOneImage).enhanced_description
      = some (cleanOriginalDescription itOneImage.description) ∧
    (processImages envOcrNone itOneImage).ocr_brands = some [] :=
  ⟨processImages_no_ocr_spec.1 envOcrNone itNoImages rfl,
   (processImages_no_ocr_spec.2 envOcrNone itOneImage (by decide) (fun _ => rfl)).1,
   (processImages_no_ocr_spec.2 envOcrNone itOneImage (by decide) (fun _ => rfl)).2.1⟩

/-- A Python slice keeps at most its bound. -/
theorem strTake_length_le (n : Nat) (s : String) : (strTake n s).length ≤ n := by
  show (s.data.take n).length ≤ n
  exact List.length_take_le n s.data

/-- The detection-backed query never exceeds 200 characters. -/
theorem buildRichQuery_length_le (parts : List String) (od : String) :
    (buildRichQuery parts od).length ≤ 200 := by
  unfold buildRichQuery
  dsimp only
  split <;> split <;> first
    | exact strTake_length_le 200 _
    | omega

/-- C10 (amended): when the detection stage produced any query parts, the
stored `rich_search_query` is at most 200 characters; when it produced none,
the stored query is the lot-cleaned original description, with no length
cap. -/
theorem richQuery_length_spec :
    (∀ (env : DetectEnv) (it : Item), it.images ≠ [] →
      richParts (detectionSummary env it) ≠ [] →
      ((enhanceItemWithObjectDetection env it).rich_search_query.getD "").length ≤ 200) ∧
    (∀ (env : DetectEnv) (it : Item), it.images ≠ [] →
      richParts (detectionSummary env it) = [] →
      (enhanceItemWithObjectDetection env it).rich_search_query
        = some (lotCleanedOriginal it)) := by
  constructor
  · intro env it himg hp
    show ((if it.images = [] then it
      else { it with
        object_detection := some (detectionSummary env it),
        rich_search_query := some (if richParts (detectionSummary env it) ≠ [] then
          buildRichQuery (richParts (detectionSummary env it)) (lotCleanedOriginal it)
        else lotCleanedOriginal it) }).rich_search_query.getD "").length ≤ 200
    rw [if_neg himg]
    show (Option.getD (some (if richParts (detectionSummary env it) ≠ [] then
      buildRichQuery (richParts (detectionSummary env it)) (lotCleanedOriginal it)
      else lotCleanedOriginal it)) "").length ≤ 200
    rw [if_pos hp, Option.getD_some]
    exact buildRichQuery_length_le _ _
  · intro env it himg hp
    show (if it.images = [] then it
      else { it with
        object_detection := some (detectionSummary env it),
        rich_search_query := some (if richParts (detectionSummary env it) ≠ [] then
          buildRichQuery (richParts (detectionSummary env it)) (lotCleanedOriginal it)
        else lotCleanedOriginal it) }).rich_search_query = some (lotCleanedOriginal it)
    rw [if_neg himg]
    show some (if richParts (detectionSummary env it) ≠ [] then
      buildRichQuery (richParts (detectionSummary env it)) (lotCleanedOriginal it)
      else lotCleanedOriginal it) = some (lotCleanedOriginal it)
    rw [if_neg (by simp [hp])]

/-- C10 witness: both branches at the concrete 210-character item. -/
theorem richQuery_length_spec_witness :
    ((enhanceItemWithObjectDetection envDet itLongDescImg).rich_search_query.getD "").length
      ≤ 200 ∧
    (enhanceItemWithObjectDetection envNoDet itLongDescImg).rich_search_query
      = some (lotCleanedOriginal itLongDescImg) :=
  ⟨richQuery_length_spec.1 envDet itLongDescImg (by decide) (by decide),
   richQuery_length_spec.2 envNoDet itLongDescImg (by decide) (by rfl)⟩

/-- In a sorted list every element is at most the last one. -/
theorem sorted_le_getLast :
    ∀ (s : List ℚ), List.Sorted (fun a b => a ≤ b) s → ∀ (h : s ≠ []) (x : ℚ), x ∈ s →
      x ≤ s.getLast h := by
  intro s
  induction s with
  | nil => intro _ h; exact absurd rfl h
  | cons a t ih =>
    intro hs h x hx
    rcases List.sorted_cons.mp hs with ⟨ha, ht⟩
    rcases List.mem_cons.mp hx with rfl | hxt
    · cases t with
      | nil => simp [List.getLast]
      | cons b u =>
        rw [List.getLast_cons (by simp : (b :: u) ≠ [])]
        exact ha _ (List.getLast_mem _)
    · cases t with
      | nil => simp at hxt
      | cons b u =>
        rw [List.getLast_cons (by simp : (b :: u) ≠ [])]
        exact ih ht (by simp) x hxt

/-- C6: with at least four extracted prices, the price aggregation drops one
smallest and one largest element (the ends of the sorted list, which bound
every extracted price) and returns the element at index `length / 2` of the
sorted remainder; with one to three prices no trimming happens; the claim's
two example lists both yield 10. -/
theorem medianPrice_outlier_trim_spec :
    (∀ l : List ℚ, 4 ≤ l.length →
      ∃ lo hi mid, pySorted l = lo :: (mid ++ [hi]) ∧
        (∀ x ∈ l, lo ≤ x) ∧ (∀ x ∈ l, x ≤ hi) ∧
        medianPrice l = some (midElement (pySorted mid))) ∧
    (∀ l : List ℚ, l ≠ [] → l.length ≤ 3 →
      medianPrice l = some (midElement (pySorted l))) ∧
    medianPrice [5, 10, 10, 1000] = some 10 ∧
    medianPrice [10, 10, 10] = some 10 := by
  refine ⟨?_, ?_, by decide, by decide⟩
  · intro l hl
    have hs : List.Sorted (fun a b => a ≤ b) (pySorted l) := List.sorted_insertionSort _ l
    have hp : List.Perm (pySorted l) l := List.perm_insertionSort _ l
    have hlen : (pySorted l).length = l.length := hp.length_eq
    obtain ⟨a, t, hat⟩ : ∃ a t, pySorted l = a :: t := by
      cases hcase : pySorted l with
      | nil => rw [hcase] at hlen; simp at hlen; omega
      | cons a t => exact ⟨a, t, rfl⟩
    have ht : t ≠ [] := by
      intro h0
      rw [hat, h0] at hlen
      simp at hlen
      omega
    refine ⟨a, t.getLast ht, t.dropLast, ?_, ?_, ?_, ?_⟩
    · rw [hat]
      congr 1
      exact (List.dropLast_append_getLast ht).symm
    · intro x hx
      have hx2 : x ∈ pySorted l := hp.mem_iff.mpr hx
      rw [hat] at hx2
      rcases List.mem_cons.mp hx2 with rfl | hxt
      · exact le_refl x
      · exact (List.sorted_cons.mp (hat ▸ hs)).1 x hxt
    · intro x hx
      have hx2 : x ∈ pySorted l := hp.mem_iff.mpr hx
      have hle := sorted_le_getLast (pySorted l) hs (by rw [hat]; simp) x hx2
      rw [show (pySorted l).getLast (by rw [hat]; simp) = t.getLast ht from by
        simp only [hat]
        rw [List.getLast_cons ht]] at hle
      exact hle
    · unfold medianPrice
      rw [if_neg (by intro h0; rw [h0] at hl; simp at hl)]
      rw [if_pos (by omega : l.length > 3)]
      rw [hat]
      rfl
  · intro l h1 h2
    unfold medianPrice
    rw [if_neg h1]
    rw [if_neg (by omega : ¬ l.length > 3)]

/-- C6 witness: the trimming decomposition at the four-element example and
the no-trim case at the three-element example. -/
theorem medianPrice_outlier_trim_spec_witness :
    (∃ lo hi mid, pySorted [5, 10, 10, 1000] = lo :: (mid ++ [hi]) ∧
      (∀ x ∈ ([5, 10, 10, 1000] : List ℚ), lo ≤ x) ∧
      (∀ x ∈ ([5, 10, 10, 1000] : List ℚ), x ≤ hi) ∧
      medianPrice [5, 10, 10, 1000] = some (midElement (pySorted mid))) ∧
    medianPrice [10, 10, 10] = some (midElement (pySorted [10, 10, 10])) :=
  ⟨medianPrice_outlier_trim_spec.1 [5, 10, 10, 1000] (by decide),
   medianPrice_outlier_trim_spec.2.1 [10, 10, 10] (by decide) (by decide)⟩

/-- C7: the price lookup never raises to its caller — it is a total function
into price-and-item — and: an LLM result flagging insufficient
identification makes it store the product info, set the skip flag and return
0.0 immediately, whatever the search backends would do; with no LLM query,
no short-circuit and an all-falsy fallback chain it returns 0.0; and when a
query exists but the Google search stage raises, the top-level handler
returns the fixed default 25.0. -/
theorem getBestMarketPrice_error_handling_spec :
    (∀ (amz : Bool) (env : PriceEnv) (it : Item) (r : LLMResults),
      env.llm = .ok (some r) → r.hasError = false → r.insufficient_identification = true →
      getBestMarketPrice true amz env it =
        (0, { it with
              llm_product_info := some (llmInfoOfResults r),
              skip_for_processing := true })) ∧
    (∀ (openr amz : Bool) (env : PriceEnv) (it : Item),
      (llmStage openr env.llm it).2.1 = none →
      resolvedQuery openr env.llm it = none →
      getBestMarketPrice openr amz env it = (0, (llmStage openr env.llm it).1)) ∧
    (∀ (openr amz : Bool) (env : PriceEnv) (it : Item) (q : String),
      (llmStage openr env.llm it).2.1 = none →
      resolvedQuery openr env.llm it = some q →
      env.google = .error () →
      (getBestMarketPrice openr amz env it).1 = 25) := by
  refine ⟨?_, ?_, ?_⟩
  · intro amz env it r h1 h2 h3
    unfold getBestMarketPrice llmStage
    rw [h1]
    simp [h2, h3]
  · intro openr amz env it hshort hq
    unfold getBestMarketPrice
    dsimp only
    rw [hshort, hq]
  · intro openr amz env it q hshort hq hg
    unfold getBestMarketPrice
    dsimp only
    rw [hshort, hq, hg]

/-- C7 witness: each behaviour at a concrete environment. -/
theorem getBestMarketPrice_error_handling_spec_witness :
    getBestMarketPrice true false envLLMShort itPlain =
      (0, { itPlain with
            llm_product_info := some (llmInfoOfResults { insufficient_identification := true }),
            skip_for_processing := true }) ∧
    getBestMarketPrice false false envNoQuery itEmptyFields =
      (0, (llmStage false envNoQuery.llm itEmptyFields).1) ∧
    (getBestMarketPrice false true envGoogleRaise itPlain).1 = 25 :=
  ⟨getBestMarketPrice_error_handling_spec.1 false envLLMShort itPlain
      { insufficient_identification := true } rfl rfl rfl,
   getBestMarketPrice_error_handling_spec.2.1 false false envNoQuery itEmptyFields rfl rfl,
   getBestMarketPrice_error_handling_spec.2.2 false true envGoogleRaise itPlain "d"
      rfl (by with_unfolding_all rfl) rfl⟩

/-- A keyword fold adding a fixed amount counts the contained keywords. -/
theorem foldl_keyword_add (amt : ℚ) (p : String → Bool) :
    ∀ (ks : List String) (b : ℚ),
      ks.foldl (fun b k => if p k then b + amt else b) b
        = b + amt * ((ks.filter p).length : ℚ) := by
  intro ks
  induction ks with
  | nil => intro b; simp
  | cons k ks ih =>
    intro b
    by_cases h : p k
    · rw [List.foldl_cons, if_pos h, ih, List.filter_cons_of_pos (by simp [h]),
        List.length_cons]
      push_cast
      ring
    · rw [List.foldl_cons, if_neg h, ih, List.filter_cons_of_neg (by simp [h])]

/-- A keyword fold subtracting a fixed amount counts the contained
keywords. -/
theorem foldl_keyword_sub (amt : ℚ) (p : String → Bool) :
    ∀ (ks : List String) (b : ℚ),
      ks.foldl (fun b k => if p k then b - amt else b) b
        = b - amt * ((ks.filter p).length : ℚ) := by
  intro ks
  induction ks with
  | nil => intro b; simp
  | cons k ks ih =>
    intro b
    by_cases h : p k
    · rw [List.foldl_cons, if_pos h, ih, List.filter_cons_of_pos (by simp [h]),
        List.length_cons]
      push_cast
      ring
    · rw [List.foldl_cons, if_neg h, ih, List.filter_cons_of_neg (by simp [h])]

/-- The Python max is at least its second argument. -/
theorem pyMax_ge_right (a b : ℚ) : b ≤ pyMax a b := by
  unfold pyMax
  split
  · assumption
  · exact le_refl b

/-- C8 (amended): the keyword estimator is the deterministic closed form
starting from the fixed base 50.0 — not from the unused category table —
with 50 per high-value keyword, 15 per mid-value keyword, minus 5 per
low-value keyword, a 1.5 factor on a multi-piece pattern, 5 per inch above
32 when a large inch measurement is found, and a floor of 10.0, which the
result never goes below. -/
theorem estimatePrice_formula_spec (d : String) :
    estimatePriceFromDescription d =
      pyMax (((50 : ℚ) + 50 * (keywordCount highValueKeywords d : ℚ)
          + 15 * (keywordCount midValueKeywords d : ℚ)
          - 5 * (keywordCount lowValueKeywords d : ℚ))
        * (if multiPiece d then mkRat 3 2 else 1) + inchBonus d) 10 ∧
    10 ≤ estimatePriceFromDescription d := by
  constructor
  · unfold estimatePriceFromDescription keywordCount multiPiece inchBonus
    dsimp only
    rw [foldl_keyword_add, foldl_keyword_add, foldl_keyword_sub]
    by_cases hm : (hasSetOfNum (pyLower d).data || hasNumPiece (pyLower d).data) = true
    · rw [if_pos hm, if_pos hm]
      cases hf : findInchSize (pyLower d).data with
      | none => rw [add_zero]
      | some size =>
        dsimp only
        by_cases hsz : size > 32
        · rw [if_pos hsz, if_pos hsz]
        · rw [if_neg hsz, if_neg hsz, add_zero]
    · rw [if_neg hm, if_neg hm, mul_one]
      cases hf : findInchSize (pyLower d).data with
      | none => rw [add_zero]
      | some size =>
        dsimp only
        by_cases hsz : size > 32
        · rw [if_pos hsz, if_pos hsz]
        · rw [if_neg hsz, if_neg hsz, add_zero]
  · unfold estimatePriceFromDescription
    exact pyMax_ge_right _ 10

end Bidder
